import Mathlib

/-!
Verification of the Due-Reminder Dispatch Engine of the reminder service.

The development shallowly embeds the relevant Python code:
  * `crud.py` — `create_reminder`, `get_reminder`, `update_reminder`,
    `get_due_reminders_for_calls`;
  * `background_worker.py` — `initiate_outgoing_call` (destination
    normalization + the remote call) and the per-reminder retry burst inside
    `process_due_reminders`;
  * `mcp_server.py` — `parse_datetime_to_utc`.

Modelling conventions:
  * Python `datetime` objects become `PyDateTime`: a wall-clock reading plus an
    optional UTC offset (`none` = naive).  Aware datetimes denote the instant
    `wall - offset`.
  * The JSON `context` column becomes an association list with Python `dict`
    semantics (`ctxGet` / `ctxSet`), values drawn from `JsonVal`.
  * The database is a list of `Reminder` records in insertion (rowid) order;
    a SQLAlchemy query without `order_by` returns rows in that order.
  * The network is an oracle: the would-be response of the remote call API,
    `none` standing for any failed attempt (non-200 status, timeout,
    transport error, or falsy body).
-/

set_option autoImplicit false

namespace ReminderService

/-- A JSON value stored in a reminder's `context` map. -/
inductive JsonVal where
  | bool (b : Bool)
  | str (s : String)
  | int (n : Int)
  | null
  deriving DecidableEq

/-- Python truthiness of a context value, as used by
`context.get('call_initiated', False)` tests in `crud.py`. -/
def pyTruthy : JsonVal → Bool
  | JsonVal.bool b => b
  | JsonVal.str s => !s.isEmpty
  | JsonVal.int n => n != 0
  | JsonVal.null => false

/-- The `context` JSON map: an association list with Python dict semantics. -/
abbrev Ctx := List (String × JsonVal)

/-- `dict` lookup: first binding of the key, if any. -/
def ctxGet : Ctx → String → Option JsonVal
  | [], _ => none
  | (k, v) :: rest, key => if k = key then some v else ctxGet rest key

/-- `dict.get(key, default)`. -/
def ctxGetD (ctx : Ctx) (key : String) (default : JsonVal) : JsonVal :=
  (ctxGet ctx key).getD default

/-- `dict[key] = val`: replace in place if the key exists, else append
(Python dicts preserve insertion order). -/
def ctxSet : Ctx → String → JsonVal → Ctx
  | [], key, val => [(key, val)]
  | (k, v) :: rest, key, val =>
    if k = key then (k, val) :: rest else (k, v) :: ctxSet rest key val

/-- A Python `datetime`: a wall-clock reading together with an optional UTC
offset (`tzinfo`); `tz = none` models a naive datetime.  An aware value
denotes the absolute instant `wall - offset`. -/
structure PyDateTime where
  wall : Int
  tz : Option Int
  deriving DecidableEq

/-- The absolute instant denoted by a datetime (naive values are read at
offset 0, matching how the store compares persisted values). -/
def instant (d : PyDateTime) : Int := d.wall - d.tz.getD 0

/-- Python `==` on datetimes: aware values compare as instants, naive values
by wall clock, and a naive/aware mix is unequal. -/
def pyDtEq (a b : PyDateTime) : Bool :=
  match a.tz, b.tz with
  | some ta, some tb => a.wall - ta == b.wall - tb
  | none, none => a.wall == b.wall
  | _, _ => false

/-- `if due_dt.tzinfo is None: due_dt = due_dt.replace(tzinfo=timezone.utc)`
(crud.py lines 55-56 and 160-161): a naive datetime gets the UTC offset
attached, keeping its wall clock; aware datetimes pass through unchanged. -/
def ensureUtc (d : PyDateTime) : PyDateTime :=
  if d.tz = none then { d with tz := some 0 } else d

/-- `parse_datetime_to_utc` (mcp_server.py): the already-parsed datetime; a
naive value gets Asia/Kolkata (+330 minutes) attached, then the result is
converted to UTC (`astimezone(timezone.utc)`). -/
def parse_datetime_to_utc (dt : PyDateTime) : PyDateTime :=
  let dt' := if dt.tz = none then { dt with tz := some 330 } else dt
  ⟨instant dt', some 0⟩

inductive StatusEnum where
  | PENDING
  | COMPLETED
  | CANCELLED
  deriving DecidableEq

inductive PriorityEnum where
  | LOW
  | MEDIUM
  | HIGH
  deriving DecidableEq

/-- The `reminders` table row (database.py). -/
structure Reminder where
  id : String
  user_mobile : String
  destination_mobile : Option String
  title : String
  description : String
  due_datetime : PyDateTime
  priority : PriorityEnum
  status : StatusEnum
  context : Ctx
  recurrence : Option String
  created_at : PyDateTime
  updated_at : PyDateTime
  deriving DecidableEq

/-- `get_reminder` (crud.py): first row matching id and owner. -/
def get_reminder (store : List Reminder) (reminder_id user_mobile : String) : Option Reminder :=
  store.find? fun r => r.id == reminder_id && r.user_mobile == user_mobile

/-- Committing a mutated session object: every row with this identity takes
the new value (ids are unique in practice). -/
def storeReplace (store : List Reminder) (reminder_id user_mobile : String)
    (r : Reminder) : List Reminder :=
  store.map fun x => if x.id == reminder_id && x.user_mobile == user_mobile then r else x

/-- `get_due_reminders_for_calls` (crud.py lines 261-306): the SQL filter
(pending, due, destination present) followed by the Python loop dropping
candidates whose context has a truthy `call_initiated` or `call_failed`.
The query has no `order_by`, so rows come back in store (rowid) order. -/
def get_due_reminders_for_calls (store : List Reminder) (now : Int) : List Reminder :=
  let all_due := store.filter fun r =>
    r.status == StatusEnum.PENDING
      && decide (instant r.due_datetime ≤ now)
      && r.destination_mobile.isSome
  all_due.filter fun r =>
    !(pyTruthy (ctxGetD r.context "call_initiated" (JsonVal.bool false)))
      && !(pyTruthy (ctxGetD r.context "call_failed" (JsonVal.bool false)))

/-- The combined eligibility predicate of `get_due_reminders_for_calls`. -/
def eligibleForCall (r : Reminder) (now : Int) : Bool :=
  r.status == StatusEnum.PENDING
    && decide (instant r.due_datetime ≤ now)
    && r.destination_mobile.isSome
    && !(pyTruthy (ctxGetD r.context "call_initiated" (JsonVal.bool false)))
    && !(pyTruthy (ctxGetD r.context "call_failed" (JsonVal.bool false)))

/-- The data passed to `crud.create_reminder` after the front ends have parsed
strings (priority already coerced to its enum; `due_datetime` already a
datetime object). -/
structure CreateData where
  user_mobile : String
  destination_mobile : Option String
  title : String
  description : String
  due_datetime : PyDateTime
  priority : PriorityEnum
  context : Ctx
  recurrence : Option String
  deriving DecidableEq

/-- `create_reminder` (crud.py lines 19-76): destination defaults to the
owner when falsy, a naive `due_datetime` gets the UTC offset attached, the
row is created pending with `created_at = updated_at = now`. -/
def create_reminder (reminder_data : CreateData) (reminder_id : String) (now : Int) : Reminder :=
  let destination_mobile :=
    match reminder_data.destination_mobile with
    | some d => if d.isEmpty then reminder_data.user_mobile else d
    | none => reminder_data.user_mobile
  let due_dt := ensureUtc reminder_data.due_datetime
  { id := reminder_id, user_mobile := reminder_data.user_mobile,
    destination_mobile := some destination_mobile, title := reminder_data.title,
    description := reminder_data.description, due_datetime := due_dt,
    priority := reminder_data.priority, status := StatusEnum.PENDING,
    context := reminder_data.context, recurrence := reminder_data.recurrence,
    created_at := ⟨now, some 0⟩, updated_at := ⟨now, some 0⟩ }

/-- The `updates` dict passed to `crud.update_reminder`; `none` covers both an
absent key and an explicit `None` value (both are skipped by the update loop,
and both fail the `'due_datetime' in updates and ... is not None` test). -/
structure UpdateDict where
  title : Option String
  description : Option String
  due_datetime : Option PyDateTime
  destination_mobile : Option String
  priority : Option PriorityEnum
  status : Option StatusEnum
  context : Option Ctx
  deriving DecidableEq

/-- An update dict carrying only a `context` entry, as built by the worker's
persist step (`updates = {'context': context}`). -/
def ctxUpdate (c : Ctx) : UpdateDict := ⟨none, none, none, none, none, none, some c⟩

/-- Result of `crud.update_reminder`: the committed store, the returned row
(`None` when absent), and whether `flag_modified(reminder, 'context')` ran. -/
structure UpdateResult where
  store : List Reminder
  result : Option Reminder
  flaggedContext : Bool
  deriving DecidableEq

/-- `update_reminder` (crud.py lines 122-184): re-fetch by id and owner
(`None` when absent); apply every non-`None` field, attaching UTC to a naive
`due_datetime`; flag the context column when it was updated; clear the whole
context when `due_datetime` was updated to a future instant different from
the original; stamp `updated_at`; commit. -/
def update_reminder (store : List Reminder) (reminder_id user_mobile : String)
    (updates : UpdateDict) (now : Int) : UpdateResult :=
  match get_reminder store reminder_id user_mobile with
  | none => ⟨store, none, false⟩
  | some reminder =>
    let original_due_datetime := reminder.due_datetime
    let r1 : Reminder := { reminder with
      title := updates.title.getD reminder.title,
      description := updates.description.getD reminder.description,
      due_datetime := match updates.due_datetime with
        | some d => ensureUtc d
        | none => reminder.due_datetime,
      destination_mobile := match updates.destination_mobile with
        | some d => some d
        | none => reminder.destination_mobile,
      priority := updates.priority.getD reminder.priority,
      status := updates.status.getD reminder.status,
      context := updates.context.getD reminder.context }
    let flagged := updates.context.isSome
    let cleared := updates.due_datetime.isSome
      && decide (now < instant r1.due_datetime)
      && !(pyDtEq r1.due_datetime original_due_datetime)
    let r2 := if cleared then { r1 with context := ([] : Ctx) } else r1
    let r3 := { r2 with updated_at := PyDateTime.mk now (some 0) }
    ⟨storeReplace store reminder_id user_mobile r3, some r3, flagged || cleared⟩

/-- `delete_reminder` (crud.py lines 187-204). -/
def delete_reminder (store : List Reminder) (reminder_id user_mobile : String) :
    List Reminder × Bool :=
  match get_reminder store reminder_id user_mobile with
  | none => (store, false)
  | some _ =>
    (store.filter (fun x => !(x.id == reminder_id && x.user_mobile == user_mobile)), true)

/-! ### Call Dispatcher (background_worker.initiate_outgoing_call) -/

/-- Python `s.startswith(pre)`. -/
def pyStartsWith (s pre : String) : Bool := s.data.take pre.data.length == pre.data

/-- Python `s[n:]`. -/
def pyDrop (s : String) (n : Nat) : String := ⟨s.data.drop n⟩

/-- Python `len(s)`. -/
def pyLen (s : String) : Nat := s.data.length

/-- Python `s.isdigit()` (false on the empty string). -/
def pyIsDigit (s : String) : Bool := !s.data.isEmpty && s.data.all Char.isDigit

/-- The prefix-stripping step of `initiate_outgoing_call`
(background_worker.py lines 56-62). -/
def strip_destination (destination_mobile : String) : String :=
  if pyStartsWith destination_mobile "+91" then pyDrop destination_mobile 3
  else if pyStartsWith destination_mobile "91" && pyLen destination_mobile == 12 then
    pyDrop destination_mobile 2
  else if pyStartsWith destination_mobile "+" then pyDrop destination_mobile 1
  else destination_mobile

/-- The normalization of `initiate_outgoing_call` (background_worker.py lines
56-67): strip a country-code prefix, then require exactly 10 digits. -/
def normalize_destination (destination_mobile : String) : Option String :=
  let destination := strip_destination destination_mobile
  if pyLen destination != 10 || !(pyIsDigit destination) then none
  else some destination

/-- The fields the worker reads off the remote response
(`call_response.get('call_id')` / `.get('agent_number')`; `JsonVal.null`
models an absent key). -/
structure CallResponse where
  call_id : JsonVal
  agent_number : JsonVal
  deriving DecidableEq

/-- Outcome of one `initiate_outgoing_call` invocation: either the
normalization rejected the destination before any network traffic, or the
HTTP POST went out with `destination_number` and produced `resp`
(`none` = non-200 status, timeout, transport error, or falsy body). -/
inductive DispatchResult where
  | rejected
  | called (destination_number : String) (resp : Option CallResponse)
  deriving DecidableEq

/-- `initiate_outgoing_call` (background_worker.py lines 42-100), with the
network outcome supplied as the oracle `netResp`. -/
def initiate_outgoing_call (netResp : Option CallResponse) (destination_mobile : String) :
    DispatchResult :=
  match normalize_destination destination_mobile with
  | none => DispatchResult.rejected
  | some destination => DispatchResult.called destination netResp

/-- What the retry loop sees from one attempt (`if call_response:`). -/
def dispatchOutcome : DispatchResult → Option CallResponse
  | DispatchResult.rejected => none
  | DispatchResult.called _ resp => resp

/-! ### Retry Coordinator (the per-reminder burst inside process_due_reminders) -/

/-- Externally visible steps of one burst: a call attempt, or an
`asyncio.sleep` between failed attempts. -/
inductive BurstEvent where
  | attempt (n : Nat)
  | sleep (seconds : Nat)
  deriving DecidableEq

/-- Result of one burst: the committed store, the attempt/sleep trace, the
context dict handed to `crud.update_reminder`, and whether that update
flagged the context column. -/
structure BurstOut where
  store : List Reminder
  events : List BurstEvent
  persistedCtx : Option Ctx
  flagged : Bool
  deriving DecidableEq

/-- The success merge (background_worker.py lines 146-151), applied to the
in-memory context in source order. -/
def successCtx (context : Ctx) (resp : CallResponse) (nowIso destination_mobile : String)
    (attempt : Nat) : Ctx :=
  ctxSet (ctxSet (ctxSet (ctxSet (ctxSet (ctxSet context
    "call_initiated" (JsonVal.bool true))
    "call_id" resp.call_id)
    "call_timestamp" (JsonVal.str nowIso))
    "call_destination" (JsonVal.str destination_mobile))
    "call_agent_number" resp.agent_number)
    "call_retry_count" (JsonVal.int attempt)

/-- The terminal-failure merge (background_worker.py lines 173-176). -/
def failureCtx (context : Ctx) (nowIso : String) : Ctx :=
  ctxSet (ctxSet (ctxSet (ctxSet context
    "call_failed" (JsonVal.bool true))
    "call_retry_count" (JsonVal.int 3))
    "call_failed_timestamp" (JsonVal.str nowIso))
    "call_failed_reason" (JsonVal.str "Max retries exceeded")

/-- The retry loop of `process_due_reminders` (background_worker.py lines
134-192), one iteration per constructor level: try the call; on success merge
the call details and persist; on failure sleep `2 ** attempt` seconds while
`attempt < max_retries` (3), else merge the failure record and persist.  The
fuel argument only bounds the recursion; it starts at 3 and stays in step
with `attempt`, so the `0` case is never reached from `process_reminder`. -/
def burstAux (net : Nat → Option CallResponse) (reminder_id user_mobile dest : String)
    (now : Int) (nowIso : String) :
    Nat → Nat → Ctx → List Reminder → BurstOut
  | 0, _, _, store => ⟨store, [], none, false⟩
  | fuel + 1, attempt, context, store =>
    match dispatchOutcome (initiate_outgoing_call (net attempt) dest) with
    | some resp =>
      let context' := successCtx context resp nowIso dest attempt
      let res := update_reminder store reminder_id user_mobile (ctxUpdate context') now
      ⟨res.store, [BurstEvent.attempt attempt], some context', res.flaggedContext⟩
    | none =>
      if attempt < 3 then
        let out := burstAux net reminder_id user_mobile dest now nowIso
          fuel (attempt + 1) context store
        ⟨out.store, BurstEvent.attempt attempt :: BurstEvent.sleep (2 ^ attempt) :: out.events,
          out.persistedCtx, out.flagged⟩
      else
        let context' := failureCtx context nowIso
        let res := update_reminder store reminder_id user_mobile (ctxUpdate context') now
        ⟨res.store, [BurstEvent.attempt attempt], some context', res.flaggedContext⟩

/-- One selected reminder's burst: `context = reminder.context or {}` and a
read of `call_retry_count` that the loop never uses (background_worker.py
lines 130-138), then up to `max_retries = 3` attempts starting at 1.  The
worker only reaches this code for selected reminders, whose
`destination_mobile` is present. -/
def process_reminder (net : Nat → Option CallResponse) (reminder : Reminder)
    (now : Int) (nowIso : String) (store : List Reminder) : BurstOut :=
  burstAux net reminder.id reminder.user_mobile (reminder.destination_mobile.getD "")
    now nowIso 3 1 reminder.context store

/-- The attempt numbers of a burst trace, in order. -/
def attemptNums (events : List BurstEvent) : List Nat :=
  events.filterMap fun e =>
    match e with
    | BurstEvent.attempt n => some n
    | BurstEvent.sleep _ => none

/-! ### Concrete data used by the witnesses and counterexamples -/

/-- A pending, due reminder with a clean context and a valid destination. -/
def witnessReminder : Reminder :=
  { id := "r1", user_mobile := "u1", destination_mobile := some "9876543210",
    title := "t", description := "", due_datetime := ⟨50, some 0⟩,
    priority := PriorityEnum.MEDIUM, status := StatusEnum.PENDING,
    context := [("note", JsonVal.str "x")], recurrence := none,
    created_at := ⟨0, some 0⟩, updated_at := ⟨0, some 0⟩ }

/-- The same reminder after a terminal failure was recorded. -/
def witnessReminder' : Reminder :=
  { witnessReminder with context := [("call_failed", JsonVal.bool true)] }

/-- A remote response carrying the two identifiers the worker reads. -/
def witnessResp : CallResponse := ⟨JsonVal.str "cid", JsonVal.str "ag"⟩

/-- A network oracle whose first success is attempt 2. -/
def witnessNet2 : Nat → Option CallResponse :=
  fun n => if n = 2 then some witnessResp else none

/-- An update dict rescheduling to the (future) instant 1000 UTC. -/
def rescheduleUpdate : UpdateDict := ⟨none, none, some ⟨1000, some 0⟩, none, none, none, none⟩

/-- The stale terminal context a burst over `witnessReminder`'s snapshot
would try to persist. -/
def c5_staleCtx : Ctx := failureCtx witnessReminder.context "T1"

/-- The store after `witnessReminder` was rescheduled (at time 500) between
selection and persist: its due moved to 1000 and its dispatch state is
fresh. -/
def c5_rescheduled : List Reminder :=
  (update_reminder [witnessReminder] "r1" "u1" rescheduleUpdate 500).store

/-- Two eligible reminders stored later-due first. -/
def c8_store : List Reminder :=
  [{ witnessReminder with id := "a", due_datetime := ⟨10, some 0⟩ },
   { witnessReminder with id := "b", due_datetime := ⟨5, some 0⟩ }]

/-- Create payload whose `due_datetime` is already timezone-aware at a
non-UTC offset (+330 minutes, i.e. +05:30). -/
def c9_data : CreateData :=
  ⟨"u1", some "9876543210", "t", "", ⟨600, some 330⟩, PriorityEnum.MEDIUM, [], none⟩

/-- Create payload whose `due_datetime` is naive. -/
def c9_naiveData : CreateData :=
  ⟨"u1", some "9876543210", "t", "", ⟨600, none⟩, PriorityEnum.MEDIUM, [], none⟩

/-- The rescheduled row as it sits in `c5_rescheduled`: future due instant,
fresh dispatch state. -/
def c5_freshRow : Reminder :=
  { witnessReminder with
    due_datetime := ⟨1000, some 0⟩, context := [], updated_at := ⟨500, some 0⟩ }

/-! ### Helper lemmas -/

theorem ctxGet_ctxSet (ctx : Ctx) (key key' : String) (val : JsonVal) :
    ctxGet (ctxSet ctx key val) key' = if key' = key then some val else ctxGet ctx key' := by
  induction ctx with
  | nil =>
    by_cases h : key' = key
    · subst h
      simp [ctxSet, ctxGet]
    · simp [ctxSet, ctxGet, h, Ne.symm h]
  | cons p rest ih =>
    obtain ⟨k, v⟩ := p
    by_cases hk : k = key
    · subst hk
      by_cases h : key' = k
      · subst h
        simp [ctxSet, ctxGet]
      · simp [ctxSet, ctxGet, h, Ne.symm h]
    · by_cases h : k = key'
      · subst h
        simp [ctxSet, ctxGet, hk, Ne.symm hk]
      · simp [ctxSet, ctxGet, hk, h, ih]

theorem mem_get_due_reminders_for_calls (r : Reminder) (store : List Reminder) (now : Int) :
    r ∈ get_due_reminders_for_calls store now ↔
      r ∈ store ∧ r.status = StatusEnum.PENDING ∧ instant r.due_datetime ≤ now ∧
      r.destination_mobile.isSome = true ∧
      pyTruthy (ctxGetD r.context "call_initiated" (JsonVal.bool false)) = false ∧
      pyTruthy (ctxGetD r.context "call_failed" (JsonVal.bool false)) = false := by
  simp only [get_due_reminders_for_calls, List.mem_filter, Bool.and_eq_true,
    decide_eq_true_eq, beq_iff_eq, Bool.not_eq_true']
  tauto

theorem get_reminder_storeReplace (store : List Reminder) (reminder_id user_mobile : String)
    (r : Reminder) (hid : r.id = reminder_id) (huser : r.user_mobile = user_mobile) :
    get_reminder (storeReplace store reminder_id user_mobile r) reminder_id user_mobile =
      (get_reminder store reminder_id user_mobile).map fun _ => r := by
  induction store with
  | nil => simp [get_reminder, storeReplace]
  | cons x rest ih =>
    have hr : (r.id == reminder_id && r.user_mobile == user_mobile) = true := by
      simp [hid, huser]
    by_cases hx : (x.id == reminder_id && x.user_mobile == user_mobile) = true
    · simp only [get_reminder, storeReplace, List.map_cons] at *
      rw [List.find?_cons, List.find?_cons, if_pos hx]
      simp only [hx, hr, cond_true]
      rfl
    · simp only [get_reminder, storeReplace, List.map_cons] at *
      rw [List.find?_cons, List.find?_cons, if_neg hx]
      simp only [hx, cond_false]
      exact ih

theorem mem_storeReplace_of_get (store : List Reminder) (reminder_id user_mobile : String)
    (r r' : Reminder) (h : get_reminder store reminder_id user_mobile = some r') :
    r ∈ storeReplace store reminder_id user_mobile r := by
  simp only [get_reminder] at h
  have hmem : r' ∈ store := List.mem_of_find?_eq_some h
  have hpred := List.find?_some h
  refine List.mem_map.mpr ⟨r', hmem, ?_⟩
  simp only [hpred, if_true]

theorem burstAux_store_of_absent (net : Nat → Option CallResponse)
    (reminder_id user_mobile dest : String) (now : Int) (nowIso : String)
    (store : List Reminder) (habsent : get_reminder store reminder_id user_mobile = none) :
    ∀ fuel attempt context,
      (burstAux net reminder_id user_mobile dest now nowIso fuel attempt context store).store =
        store := by
  intro fuel
  induction fuel with
  | zero => intro attempt context; simp [burstAux]
  | succ fuel ih =>
    intro attempt context
    simp only [burstAux]
    cases dispatchOutcome (initiate_outgoing_call (net attempt) dest) with
    | some resp => simp [update_reminder, habsent]
    | none =>
      by_cases hlt : attempt < 3
      · simp [hlt, ih]
      · simp [hlt, update_reminder, habsent]

theorem burstAux_events_const (net : Nat → Option CallResponse)
    (reminder_id user_mobile dest : String) (now : Int) (nowIso : String) :
    ∀ fuel attempt context store context' store',
      (burstAux net reminder_id user_mobile dest now nowIso fuel attempt context store).events =
        (burstAux net reminder_id user_mobile dest now nowIso fuel attempt context' store').events := by
  intro fuel
  induction fuel with
  | zero => intro attempt context store context' store'; simp [burstAux]
  | succ fuel ih =>
    intro attempt context store context' store'
    simp only [burstAux]
    cases dispatchOutcome (initiate_outgoing_call (net attempt) dest) with
    | some resp => simp
    | none =>
      by_cases hlt : attempt < 3
      · rw [if_pos hlt, if_pos hlt]
        simp [ih (attempt + 1) context store context' store']
      · rw [if_neg hlt, if_neg hlt]

theorem get_reminder_id (store : List Reminder) (reminder_id user_mobile : String)
    (r : Reminder) (h : get_reminder store reminder_id user_mobile = some r) :
    r.id = reminder_id ∧ r.user_mobile = user_mobile := by
  simp only [get_reminder] at h
  have := List.find?_some h
  simpa using this

theorem update_reminder_ctx_only (store : List Reminder) (reminder_id user_mobile : String)
    (c : Ctx) (now : Int) (rs : Reminder)
    (h : get_reminder store reminder_id user_mobile = some rs) :
    update_reminder store reminder_id user_mobile (ctxUpdate c) now =
      ⟨storeReplace store reminder_id user_mobile
          { rs with context := c, updated_at := ⟨now, some 0⟩ },
        some { rs with context := c, updated_at := ⟨now, some 0⟩ }, true⟩ := by
  simp [update_reminder, h, ctxUpdate]

/-! ### Claims -/

/-- C1: for every reminder in the store and every current time, the
Eligibility Selector `get_due_reminders_for_calls` returns the reminder iff
its status is pending, its `due_datetime` is at or before now, its
`destination_mobile` is present, and its context carries neither a (truthy)
`call_initiated` nor a (truthy) `call_failed` flag — for the boolean-typed
dispatch flags this is exactly `= true`; in particular a reminder with either
terminal flag set is never returned at any time. -/
theorem eligibility_selector_spec (r : Reminder) (store : List Reminder) (now : Int) :
    (r ∈ get_due_reminders_for_calls store now ↔
      r ∈ store ∧ r.status = StatusEnum.PENDING ∧ instant r.due_datetime ≤ now ∧
      r.destination_mobile.isSome = true ∧
      pyTruthy (ctxGetD r.context "call_initiated" (JsonVal.bool false)) = false ∧
      pyTruthy (ctxGetD r.context "call_failed" (JsonVal.bool false)) = false) ∧
    ((pyTruthy (ctxGetD r.context "call_initiated" (JsonVal.bool false)) = true ∨
      pyTruthy (ctxGetD r.context "call_failed" (JsonVal.bool false)) = true) →
      ∀ later : Int, r ∉ get_due_reminders_for_calls store later) := by
  constructor
  · exact mem_get_due_reminders_for_calls r store now
  · intro hterm later hmem
    have h := (mem_get_due_reminders_for_calls r store later).mp hmem
    rcases hterm with h1 | h1
    · rw [h1] at h; simp at h
    · rw [h1] at h; simp at h

/-- C1 witness: a concrete pending, due reminder with clean context is
selected; after its terminal flag is set it is not. -/
theorem eligibility_selector_spec_witness :
    witnessReminder ∈ get_due_reminders_for_calls [witnessReminder] 100 ∧
    witnessReminder' ∉ get_due_reminders_for_calls [witnessReminder'] 100 :=
  ⟨(eligibility_selector_spec witnessReminder [witnessReminder] 100).1.mpr (by decide),
   (eligibility_selector_spec witnessReminder' [witnessReminder'] 100).2 (by decide) 100⟩

/-- C2: when all call attempts for a selected reminder fail, the burst
performs exactly attempts 1, 2, 3, sleeping `2 ** n` seconds (2s then 4s)
after failed attempt `n < 3`, then stops, and the context it persists is the
reminder's context merged with exactly `call_failed = true`,
`call_retry_count = 3`, `call_failed_timestamp = now`, and
`call_failed_reason = "Max retries exceeded"` (every other key keeps its
previous value). -/
theorem burst_all_fail_spec (net : Nat → Option CallResponse) (reminder : Reminder)
    (now : Int) (nowIso : String) (store : List Reminder)
    (h1 : dispatchOutcome
      (initiate_outgoing_call (net 1) (reminder.destination_mobile.getD "")) = none)
    (h2 : dispatchOutcome
      (initiate_outgoing_call (net 2) (reminder.destination_mobile.getD "")) = none)
    (h3 : dispatchOutcome
      (initiate_outgoing_call (net 3) (reminder.destination_mobile.getD "")) = none) :
    (process_reminder net reminder now nowIso store).events =
      [BurstEvent.attempt 1, BurstEvent.sleep 2, BurstEvent.attempt 2, BurstEvent.sleep 4,
        BurstEvent.attempt 3] ∧
    (process_reminder net reminder now nowIso store).persistedCtx =
      some (failureCtx reminder.context nowIso) ∧
    (∀ key, ctxGet (failureCtx reminder.context nowIso) key =
      if key = "call_failed" then some (JsonVal.bool true)
      else if key = "call_retry_count" then some (JsonVal.int 3)
      else if key = "call_failed_timestamp" then some (JsonVal.str nowIso)
      else if key = "call_failed_reason" then some (JsonVal.str "Max retries exceeded")
      else ctxGet reminder.context key) := by
  refine ⟨?_, ?_, ?_⟩
  · simp [process_reminder, burstAux, h1, h2, h3]
  · simp [process_reminder, burstAux, h1, h2, h3]
  · intro key
    by_cases k1 : key = "call_failed"
    · subst k1; simp [failureCtx, ctxGet_ctxSet]
    · by_cases k2 : key = "call_retry_count"
      · subst k2; simp [failureCtx, ctxGet_ctxSet]
      · by_cases k3 : key = "call_failed_timestamp"
        · subst k3; simp [failureCtx, ctxGet_ctxSet]
        · by_cases k4 : key = "call_failed_reason"
          · subst k4; simp [failureCtx, ctxGet_ctxSet]
          · simp [failureCtx, ctxGet_ctxSet, k1, k2, k3, k4]

/-- C2 witness: a network oracle that always fails, run on the concrete
pending reminder. -/
theorem burst_all_fail_spec_witness :
    dispatchOutcome (initiate_outgoing_call ((fun _ => none) 1)
      (witnessReminder.destination_mobile.getD "")) = none ∧
    (process_reminder (fun _ => none) witnessReminder 100 "T" [witnessReminder]).events =
      [BurstEvent.attempt 1, BurstEvent.sleep 2, BurstEvent.attempt 2, BurstEvent.sleep 4,
        BurstEvent.attempt 3] :=
  ⟨by decide,
   (burst_all_fail_spec (fun _ => none) witnessReminder 100 "T" [witnessReminder]
     (by decide) (by decide) (by decide)).1⟩

/-- C3: when attempt `n` (1 ≤ n ≤ 3) is the first to succeed, the burst stops
after attempt `n`, and the persisted context is the reminder's previous
context merged with exactly `call_initiated = true`, `call_id` and
`call_agent_number` from the remote response, `call_timestamp = now`,
`call_destination` = the reminder's destination, and `call_retry_count = n`;
every other key keeps its previous value, and the store update flags the
context column so change tracking persists the in-place mutation. -/
theorem burst_first_success_spec (net : Nat → Option CallResponse) (reminder : Reminder)
    (resp : CallResponse) (n : Nat) (now : Int) (nowIso : String) (store : List Reminder)
    (hn1 : 1 ≤ n) (hn3 : n ≤ 3)
    (hprev : ∀ m, m < n → dispatchOutcome
      (initiate_outgoing_call (net m) (reminder.destination_mobile.getD "")) = none)
    (hsucc : dispatchOutcome
      (initiate_outgoing_call (net n) (reminder.destination_mobile.getD "")) = some resp) :
    attemptNums (process_reminder net reminder now nowIso store).events = List.range' 1 n ∧
    (process_reminder net reminder now nowIso store).persistedCtx =
      some (successCtx reminder.context resp nowIso (reminder.destination_mobile.getD "") n) ∧
    (∀ key, ctxGet
        (successCtx reminder.context resp nowIso (reminder.destination_mobile.getD "") n) key =
      if key = "call_initiated" then some (JsonVal.bool true)
      else if key = "call_id" then some resp.call_id
      else if key = "call_agent_number" then some resp.agent_number
      else if key = "call_timestamp" then some (JsonVal.str nowIso)
      else if key = "call_destination" then
        some (JsonVal.str (reminder.destination_mobile.getD ""))
      else if key = "call_retry_count" then some (JsonVal.int n)
      else ctxGet reminder.context key) ∧
    (∀ rs, get_reminder store reminder.id reminder.user_mobile = some rs →
      (process_reminder net reminder now nowIso store).flagged = true ∧
      get_reminder (process_reminder net reminder now nowIso store).store
          reminder.id reminder.user_mobile =
        some { rs with
          context := successCtx reminder.context resp nowIso
            (reminder.destination_mobile.getD "") n,
          updated_at := ⟨now, some 0⟩ }) := by
  have frame : ∀ key, ctxGet
      (successCtx reminder.context resp nowIso (reminder.destination_mobile.getD "") n) key =
      if key = "call_initiated" then some (JsonVal.bool true)
      else if key = "call_id" then some resp.call_id
      else if key = "call_agent_number" then some resp.agent_number
      else if key = "call_timestamp" then some (JsonVal.str nowIso)
      else if key = "call_destination" then
        some (JsonVal.str (reminder.destination_mobile.getD ""))
      else if key = "call_retry_count" then some (JsonVal.int n)
      else ctxGet reminder.context key := by
    intro key
    by_cases k1 : key = "call_initiated"
    · subst k1; simp [successCtx, ctxGet_ctxSet]
    · by_cases k2 : key = "call_id"
      · subst k2; simp [successCtx, ctxGet_ctxSet]
      · by_cases k3 : key = "call_agent_number"
        · subst k3; simp [successCtx, ctxGet_ctxSet]
        · by_cases k4 : key = "call_timestamp"
          · subst k4; simp [successCtx, ctxGet_ctxSet]
          · by_cases k5 : key = "call_destination"
            · subst k5; simp [successCtx, ctxGet_ctxSet]
            · by_cases k6 : key = "call_retry_count"
              · subst k6; simp [successCtx, ctxGet_ctxSet]
              · simp [successCtx, ctxGet_ctxSet, k1, k2, k3, k4, k5, k6]
  have hpersist : ∀ rs, get_reminder store reminder.id reminder.user_mobile = some rs →
      (process_reminder net reminder now nowIso store).flagged = true ∧
      get_reminder (process_reminder net reminder now nowIso store).store
          reminder.id reminder.user_mobile =
        some { rs with
          context := successCtx reminder.context resp nowIso
            (reminder.destination_mobile.getD "") n,
          updated_at := ⟨now, some 0⟩ } := by
    intro rs hs
    obtain ⟨hidr, huserr⟩ := get_reminder_id store _ _ rs hs
    interval_cases n
    · rw [process_reminder]
      simp only [burstAux, hsucc]
      rw [update_reminder_ctx_only store _ _ _ now rs hs]
      refine ⟨rfl, ?_⟩
      rw [get_reminder_storeReplace store _ _ _ (by simp [hidr]) (by simp [huserr]), hs]
      rfl
    · have hp1 := hprev 1 (by omega)
      rw [process_reminder]
      simp only [burstAux, hsucc, hp1]
      norm_num
      rw [update_reminder_ctx_only store _ _ _ now rs hs]
      refine ⟨rfl, ?_⟩
      rw [get_reminder_storeReplace store _ _ _ (by simp [hidr]) (by simp [huserr]), hs]
      rfl
    · have hp1 := hprev 1 (by omega)
      have hp2 := hprev 2 (by omega)
      rw [process_reminder]
      simp only [burstAux, hsucc, hp1, hp2]
      norm_num
      rw [update_reminder_ctx_only store _ _ _ now rs hs]
      refine ⟨rfl, ?_⟩
      rw [get_reminder_storeReplace store _ _ _ (by simp [hidr]) (by simp [huserr]), hs]
      rfl
  refine ⟨?_, ?_, frame, hpersist⟩
  · interval_cases n
    · simp [process_reminder, burstAux, hsucc, attemptNums, List.range']
    · have hp1 := hprev 1 (by omega)
      simp [process_reminder, burstAux, hsucc, hp1, attemptNums, List.range']
    · have hp1 := hprev 1 (by omega)
      have hp2 := hprev 2 (by omega)
      simp [process_reminder, burstAux, hsucc, hp1, hp2, attemptNums, List.range']
  · interval_cases n
    · simp [process_reminder, burstAux, hsucc]
    · have hp1 := hprev 1 (by omega)
      simp [process_reminder, burstAux, hsucc, hp1]
    · have hp1 := hprev 1 (by omega)
      have hp2 := hprev 2 (by omega)
      simp [process_reminder, burstAux, hsucc, hp1, hp2]

/-- C3 witness: a network oracle whose first success is attempt 2, run on
the concrete pending reminder. -/
theorem burst_first_success_spec_witness :
    1 ≤ 2 ∧
    (∀ m, m < 2 → dispatchOutcome (initiate_outgoing_call (witnessNet2 m)
      (witnessReminder.destination_mobile.getD "")) = none) ∧
    attemptNums
      (process_reminder witnessNet2 witnessReminder 100 "T" [witnessReminder]).events =
      List.range' 1 2 :=
  ⟨by decide, by decide,
   (burst_first_success_spec witnessNet2 witnessReminder witnessResp 2 100 "T"
     [witnessReminder] (by decide) (by decide) (by decide) (by decide)).1⟩

/-- C10: each poll cycle's burst starts at attempt 1 and performs at most 3
attempts, and the attempt schedule is entirely independent of the reminder's
stored context — in particular of any `call_retry_count` already present —
so a reminder selected again in a later cycle gets a full fresh burst. -/
theorem burst_fresh_schedule_spec (net : Nat → Option CallResponse) (reminder : Reminder)
    (now : Int) (nowIso : String) (store store' : List Reminder) (context' : Ctx) :
    attemptNums (process_reminder net reminder now nowIso store).events =
      attemptNums (process_reminder net { reminder with context := context' }
        now nowIso store').events ∧
    ∃ k, 1 ≤ k ∧ k ≤ 3 ∧
      attemptNums (process_reminder net reminder now nowIso store).events =
        List.range' 1 k := by
  constructor
  · rw [process_reminder, process_reminder]
    simp only
    rw [burstAux_events_const net reminder.id reminder.user_mobile
      (reminder.destination_mobile.getD "") now nowIso 3 1 reminder.context store
      context' store']
  · rw [process_reminder]
    cases o1 : dispatchOutcome (initiate_outgoing_call (net 1)
      (reminder.destination_mobile.getD "")) with
    | some resp =>
      refine ⟨1, by omega, by omega, ?_⟩
      simp [burstAux, o1, attemptNums, List.range']
    | none =>
      cases o2 : dispatchOutcome (initiate_outgoing_call (net 2)
        (reminder.destination_mobile.getD "")) with
      | some resp =>
        refine ⟨2, by omega, by omega, ?_⟩
        simp [burstAux, o1, o2, attemptNums, List.range']
      | none =>
        refine ⟨3, by omega, by omega, ?_⟩
        cases o3 : dispatchOutcome (initiate_outgoing_call (net 3)
          (reminder.destination_mobile.getD "")) with
        | some resp => simp [burstAux, o1, o2, o3, attemptNums, List.range']
        | none => simp [burstAux, o1, o2, o3, attemptNums, List.range']

/-- C4: updating `due_datetime` to a strictly future instant different from
the previous one clears the reminder's context entirely (hence all reserved
dispatch-state keys), and the updated reminder is selected again once the new
time passes; an update that does not touch `due_datetime`, or sets it to an
unchanged or non-future instant, leaves the context as it was. -/
theorem reschedule_resets_eligibility (store : List Reminder) (reminder_id user_mobile : String)
    (updates : UpdateDict) (now : Int) (r : Reminder)
    (hget : get_reminder store reminder_id user_mobile = some r) :
    (∀ d, updates.due_datetime = some d →
      now < instant (ensureUtc d) →
      pyDtEq (ensureUtc d) r.due_datetime = false →
      ∃ r', (update_reminder store reminder_id user_mobile updates now).result = some r' ∧
        r'.context = [] ∧ r'.due_datetime = ensureUtc d ∧
        (∀ now2 : Int, r'.status = StatusEnum.PENDING → r'.destination_mobile.isSome = true →
          instant r'.due_datetime ≤ now2 →
          r' ∈ get_due_reminders_for_calls
            (update_reminder store reminder_id user_mobile updates now).store now2)) ∧
    (updates.context = none → updates.due_datetime = none →
      ∃ r', (update_reminder store reminder_id user_mobile updates now).result = some r' ∧
        r'.context = r.context) ∧
    (∀ d, updates.context = none → updates.due_datetime = some d →
      (instant (ensureUtc d) ≤ now ∨ pyDtEq (ensureUtc d) r.due_datetime = true) →
      ∃ r', (update_reminder store reminder_id user_mobile updates now).result = some r' ∧
        r'.context = r.context) := by
  refine ⟨?_, ?_, ?_⟩
  · intro d hd hfut hne
    simp only [update_reminder, hget, hd, Option.isSome_some, Bool.true_and, hne,
      Bool.not_false, Bool.and_true, decide_eq_true_eq]
    rw [if_pos hfut]
    refine ⟨_, rfl, rfl, rfl, ?_⟩
    intro now2 hst hdst hle
    refine (mem_get_due_reminders_for_calls _ _ now2).mpr ⟨?_, hst, hle, hdst, ?_, ?_⟩
    · exact mem_storeReplace_of_get store reminder_id user_mobile _ r hget
    · rfl
    · rfl
  · intro hctx hdue
    simp only [update_reminder, hget, hdue, hctx, Option.isSome_none, Bool.false_and,
      Bool.if_false_left, Bool.and_eq_true]
    exact ⟨_, rfl, rfl⟩
  · intro d hctx hd hstale
    simp only [update_reminder, hget, hd, hctx, Option.isSome_some, Bool.true_and]
    rcases hstale with hle | heq
    · have : ¬ (now < instant (ensureUtc d)) := by omega
      simp only [decide_eq_false this, Bool.false_and, if_false]
      exact ⟨_, rfl, rfl⟩
    · simp only [heq, Bool.not_true, Bool.and_false, if_false]
      exact ⟨_, rfl, rfl⟩

/-- C4 witness: a terminally-failed reminder rescheduled from due-instant 50
to the future instant 1000 at time 500; its context is cleared and it is
selectable again at time 1000. -/
theorem reschedule_resets_eligibility_witness :
    get_reminder [witnessReminder'] "r1" "u1" = some witnessReminder' ∧
    rescheduleUpdate.due_datetime = some ⟨1000, some 0⟩ ∧
    (500 : Int) < instant (ensureUtc ⟨1000, some 0⟩) ∧
    pyDtEq (ensureUtc ⟨1000, some 0⟩) witnessReminder'.due_datetime = false ∧
    (∃ r', (update_reminder [witnessReminder'] "r1" "u1" rescheduleUpdate 500).result =
        some r' ∧
      r'.context = [] ∧ r'.due_datetime = ensureUtc ⟨1000, some 0⟩ ∧
      (∀ now2 : Int, r'.status = StatusEnum.PENDING → r'.destination_mobile.isSome = true →
        instant r'.due_datetime ≤ now2 →
        r' ∈ get_due_reminders_for_calls
          (update_reminder [witnessReminder'] "r1" "u1" rescheduleUpdate 500).store now2)) :=
  ⟨by decide, by decide, by decide, by decide,
   (reschedule_resets_eligibility [witnessReminder'] "r1" "u1" rescheduleUpdate 500
     witnessReminder' (by decide)).1 ⟨1000, some 0⟩ (by decide) (by decide) (by decide)⟩

/-- C6: destination normalization — `"+919876543210"` and `"919876543210"`
are dispatched as `"9876543210"`; `"+19876543210"` and `"98765"` are rejected
with no network call; in general any destination whose stripped form is not
exactly 10 digit characters is rejected before the network call and the
attempt reads as a failure. -/
theorem destination_normalization_spec (netResp : Option CallResponse) :
    initiate_outgoing_call netResp "+919876543210" =
      DispatchResult.called "9876543210" netResp ∧
    initiate_outgoing_call netResp "919876543210" =
      DispatchResult.called "9876543210" netResp ∧
    initiate_outgoing_call netResp "+19876543210" = DispatchResult.rejected ∧
    initiate_outgoing_call netResp "98765" = DispatchResult.rejected ∧
    (∀ destination_mobile, (pyLen (strip_destination destination_mobile) ≠ 10 ∨
        pyIsDigit (strip_destination destination_mobile) = false) →
      initiate_outgoing_call netResp destination_mobile = DispatchResult.rejected ∧
      dispatchOutcome (initiate_outgoing_call netResp destination_mobile) = none) := by
  have n1 : normalize_destination "+919876543210" = some "9876543210" := by decide
  have n2 : normalize_destination "919876543210" = some "9876543210" := by decide
  have n3 : normalize_destination "+19876543210" = none := by decide
  have n4 : normalize_destination "98765" = none := by decide
  refine ⟨by simp [initiate_outgoing_call, n1], by simp [initiate_outgoing_call, n2],
    by simp [initiate_outgoing_call, n3], by simp [initiate_outgoing_call, n4], ?_⟩
  intro destination_mobile hbad
  have hn : normalize_destination destination_mobile = none := by
    rcases hbad with hlen | hdig
    · simp [normalize_destination, hlen]
    · simp [normalize_destination, hdig]
  refine ⟨by simp [initiate_outgoing_call, hn],
    by simp [initiate_outgoing_call, hn, dispatchOutcome]⟩

/-- C6 witness: the general rejection clause applied to the short
destination `"98765"`. -/
theorem destination_normalization_spec_witness :
    (pyLen (strip_destination "98765") ≠ 10 ∨ pyIsDigit (strip_destination "98765") = false) ∧
    initiate_outgoing_call (some witnessResp) "98765" = DispatchResult.rejected :=
  ⟨by decide,
   ((destination_normalization_spec (some witnessResp)).2.2.2.2 "98765" (by decide)).1⟩

/-- C7: when the reminder was deleted between selection and persist, the
persist re-fetch finds nothing and returns `None` without writing: the store
is unchanged (no new record) and the burst completes, leaving the store as it
was, with no error escaping toward the scheduler. -/
theorem abandon_on_delete_spec (store : List Reminder) (reminder_id user_mobile : String)
    (updates : UpdateDict) (now : Int)
    (habsent : get_reminder store reminder_id user_mobile = none) :
    update_reminder store reminder_id user_mobile updates now = ⟨store, none, false⟩ ∧
    (∀ net reminder nowIso, reminder.id = reminder_id →
      reminder.user_mobile = user_mobile →
      (process_reminder net reminder now nowIso store).store = store) := by
  constructor
  · simp [update_reminder, habsent]
  · intro net reminder nowIso hid huser
    rw [process_reminder, hid, huser]
    exact burstAux_store_of_absent net reminder_id user_mobile _ now nowIso store habsent
      3 1 reminder.context

/-- C7 witness: persisting a stale burst outcome into an empty store is a
silent no-op. -/
theorem abandon_on_delete_spec_witness :
    get_reminder [] "r1" "u1" = none ∧
    update_reminder [] "r1" "u1" (ctxUpdate [("call_failed", JsonVal.bool true)]) 600 =
      ⟨[], none, false⟩ :=
  ⟨by decide,
   (abandon_on_delete_spec [] "r1" "u1" (ctxUpdate [("call_failed", JsonVal.bool true)])
     600 (by decide)).1⟩

/-- C5 counterexample: `witnessReminder` (due instant 50) is selected; it is
then rescheduled to the future instant 1000 at time 500, which resets its
dispatch state to a fresh `{}` — so between selection and persist its
`due_datetime` changed.  Persisting the stale burst's terminal outcome at
time 600 is NOT abandoned: the fresh dispatch state is overwritten with the
stale `call_failed` merge. -/
theorem stale_persist_not_abandoned_cex :
    (get_reminder c5_rescheduled "r1" "u1").map (fun r => r.context) = some [] ∧
    (get_reminder c5_rescheduled "r1" "u1").map (fun r => r.due_datetime) =
      some ⟨1000, some 0⟩ ∧
    pyDtEq ⟨1000, some 0⟩ witnessReminder.due_datetime = false ∧
    (update_reminder c5_rescheduled "r1" "u1" (ctxUpdate c5_staleCtx) 600).result.map
      (fun r => ctxGet r.context "call_failed") = some (some (JsonVal.bool true)) ∧
    (update_reminder c5_rescheduled "r1" "u1" (ctxUpdate c5_staleCtx) 600).result.map
      (fun r => r.context) = some c5_staleCtx := by
  decide

/-- C5 amended: the persist step is abandoned only when the reminder is
absent from the store; whenever it is still present — in particular after a
reschedule changed its `due_datetime` and reset its dispatch state — the
stale burst's context is persisted unconditionally, overwriting the fresh
dispatch state. -/
theorem stale_persist_overwrites (store : List Reminder) (reminder_id user_mobile : String)
    (c : Ctx) (now : Int) (rs : Reminder)
    (h : get_reminder store reminder_id user_mobile = some rs) :
    ∃ r', (update_reminder store reminder_id user_mobile (ctxUpdate c) now).result = some r' ∧
      r'.context = c := by
  rw [update_reminder_ctx_only store reminder_id user_mobile c now rs h]
  exact ⟨_, rfl, rfl⟩

/-- C5 amended witness: the overwrite on the concrete rescheduled store. -/
theorem stale_persist_overwrites_witness :
    get_reminder c5_rescheduled "r1" "u1" = some c5_freshRow ∧
    (∃ r', (update_reminder c5_rescheduled "r1" "u1" (ctxUpdate c5_staleCtx) 600).result =
      some r' ∧ r'.context = c5_staleCtx) :=
  ⟨by decide,
   stale_persist_overwrites c5_rescheduled "r1" "u1" c5_staleCtx 600 c5_freshRow (by decide)⟩

/-- C8 counterexample: two eligible reminders stored later-due first come
back in store order — due instants `[10, 5]` — refuting ascending
`due_datetime` ordering. -/
theorem selector_order_cex :
    ((get_due_reminders_for_calls c8_store 20).map fun r => instant r.due_datetime) =
      [10, 5] ∧
    ¬ List.Sorted (· ≤ ·)
      ((get_due_reminders_for_calls c8_store 20).map fun r => instant r.due_datetime) := by
  decide

/-- C8 amended: the selector applies no `due_datetime` ordering at all — its
query has no order-by.  It returns the eligible reminders in store
(insertion/rowid) order: deterministic for a fixed store, but not sorted by
due time. -/
theorem selector_store_order (store : List Reminder) (now : Int) :
    get_due_reminders_for_calls store now =
      store.filter fun r => eligibleForCall r now := by
  rw [get_due_reminders_for_calls, List.filter_filter]
  apply List.filter_congr
  intro r _
  simp [eligibleForCall, Bool.and_assoc, Bool.and_comm, Bool.and_left_comm]

/-- C9 counterexample: `create_reminder` receiving an already-aware
`due_datetime` at offset +330 minutes (+05:30) persists it with that offset
unchanged — the persisted value is timezone-aware but not a UTC-normalized
instant. -/
theorem aware_offset_persisted_cex :
    (create_reminder c9_data "id9" 0).due_datetime = ⟨600, some 330⟩ ∧
    (create_reminder c9_data "id9" 0).due_datetime.tz ≠ some 0 := by
  decide

/-- C9 amended: persisted `due_datetime`, `created_at`, `updated_at` are
never naive.  `created_at`/`updated_at` are stamped as UTC instants.  A naive
`due_datetime` is made aware before persistence: the store layer attaches UTC
to it unchanged (it does not consult a local zone), while the agent front
end's parser interprets a naive input as Asia/Kolkata (+05:30) and converts
it to UTC.  An aware `due_datetime` is persisted with its original offset —
the same absolute instant, but not re-normalized to UTC. -/
theorem datetime_awareness_spec (reminder_data : CreateData) (reminder_id : String)
    (now : Int) (dt : PyDateTime) :
    (parse_datetime_to_utc dt).tz = some 0 ∧
    (dt.tz = none → parse_datetime_to_utc dt = ⟨dt.wall - 330, some 0⟩) ∧
    (∀ t, dt.tz = some t → instant (parse_datetime_to_utc dt) = instant dt) ∧
    (∀ d : PyDateTime, d.tz = none → ensureUtc d = ⟨d.wall, some 0⟩) ∧
    (∀ (d : PyDateTime) (t : Int), d.tz = some t → ensureUtc d = d) ∧
    (create_reminder reminder_data reminder_id now).created_at = ⟨now, some 0⟩ ∧
    (create_reminder reminder_data reminder_id now).updated_at = ⟨now, some 0⟩ ∧
    (create_reminder reminder_data reminder_id now).due_datetime.tz.isSome = true ∧
    (reminder_data.due_datetime.tz = none →
      (create_reminder reminder_data reminder_id now).due_datetime =
        ⟨reminder_data.due_datetime.wall, some 0⟩) ∧
    (∀ store rid user updates r',
      (update_reminder store rid user updates now).result = some r' →
      r'.updated_at = ⟨now, some 0⟩ ∧
      (∀ dd, updates.due_datetime = some dd →
        r'.due_datetime = ensureUtc dd ∧ (ensureUtc dd).tz.isSome = true)) := by
  refine ⟨rfl, ?_, ?_, ?_, ?_, rfl, rfl, ?_, ?_, ?_⟩
  · intro hnaive
    simp [parse_datetime_to_utc, hnaive, instant]
  · intro t ht
    simp [parse_datetime_to_utc, ht, instant]
  · intro d hnaive
    simp [ensureUtc, hnaive]
  · intro d t ht
    simp [ensureUtc, ht]
  · cases hdz : reminder_data.due_datetime.tz with
    | none => simp [create_reminder, ensureUtc, hdz]
    | some t => simp [create_reminder, ensureUtc, hdz]
  · intro hnaive
    simp [create_reminder, ensureUtc, hnaive]
  · intro store rid user updates r' hres
    cases hg : get_reminder store rid user with
    | none => simp [update_reminder, hg] at hres
    | some rs =>
      simp only [update_reminder, hg, Option.some.injEq] at hres
      subst hres
      constructor
      · rfl
      · intro dd hdd
        constructor
        · show (if _ then _ else _ : Reminder).due_datetime = _
          split
          · simp [hdd]
          · simp [hdd]
        · cases hz : dd.tz with
          | none => simp [ensureUtc, hz]
          | some t => simp [ensureUtc, hz]

/-- C9 amended witness: a naive due value is stored with UTC attached. -/
theorem datetime_awareness_spec_witness :
    c9_naiveData.due_datetime.tz = none ∧
    (create_reminder c9_naiveData "id9" 0).due_datetime = ⟨600, some 0⟩ :=
  ⟨by decide,
   (datetime_awareness_spec c9_naiveData "id9" 0 ⟨600, none⟩).2.2.2.2.2.2.2.2.1 (by decide)⟩

end ReminderService
